import Mathlib

/-
Verification of the clusteradm hub-join trust-escalation and readiness
orchestration subsystem (package join), shallowly embedded from the Go
source.  Pure Go functions become Lean functions; effectful calls to the
Kubernetes API (and other collaborators outside this package) are passed
in as an explicit environment of call results, and the network calls a
function performs are accumulated in an explicit trace, so that claims of
the shape "this call is never attempted" become statements about the
trace.
-/

namespace Clusteradm

/-- Errors flowing through the join pipeline.  `notFound` models a
Kubernetes error for which `errors.IsNotFound` reports true; `other`
models every other error (`fmt.Errorf` results, transport failures, ...),
carrying its message. -/
inductive Err where
  | notFound
  | other (msg : String)
deriving DecidableEq, Repr

/-- Embeds `errors.IsNotFound` from k8s.io/apimachinery: true exactly on the
not-found error. -/
def Err.isNotFound : Err → Bool
  | Err.notFound => true
  | Err.other _ => false

/-- Embeds `clientcmdapiv1.Cluster`: the fields of the cluster stanza that the
join code reads or writes (`Server`, `InsecureSkipTLSVerify`,
`CertificateAuthorityData`).  CA bytes are modelled as `List Nat`; the
Go zero value (nil slice) is the empty list. -/
structure Cluster where
  server : String
  insecureSkipTLSVerify : Bool
  certificateAuthorityData : List Nat
deriving DecidableEq, Repr

/-- Embeds `clientcmdapiv1.NamedCluster`. -/
structure NamedCluster where
  name : String
  cluster : Cluster
deriving DecidableEq, Repr

/-- Embeds `clientcmdapiv1.AuthInfo`: the join code only sets the bearer token. -/
structure AuthInfo where
  token : String
deriving DecidableEq, Repr

/-- Embeds `clientcmdapiv1.NamedAuthInfo`. -/
structure NamedAuthInfo where
  name : String
  authInfo : AuthInfo
deriving DecidableEq, Repr

/-- Embeds `clientcmdapiv1.Context`: cluster reference, auth-info reference and
namespace. -/
structure KubeContext where
  cluster : String
  authInfo : String
  nspace : String
deriving DecidableEq, Repr

/-- Embeds `clientcmdapiv1.NamedContext`. -/
structure NamedContext where
  name : String
  context : KubeContext
deriving DecidableEq, Repr

/-- Embeds `clientcmdapiv1.Config`: a kubeconfig document. -/
structure Config where
  clusters : List NamedCluster
  authInfos : List NamedAuthInfo
  contexts : List NamedContext
  currentContext : String
deriving DecidableEq, Repr

/-- The empty kubeconfig (Go zero value). -/
def Config.empty : Config :=
  { clusters := [], authInfos := [], contexts := [], currentContext := "" }

/-- Embeds the `BundleVersion` held in the template values. -/
structure BundleVersion where
  registrationImageVersion : String
  placementImageVersion : String
  workImageVersion : String
  operatorImageVersion : String
deriving DecidableEq, Repr

/-- The `Hub` part of the template values.  `yaml.Marshal` of the hub
kubeconfig is modelled as storing the `Config` value itself: the spec
treats the serialization format as opaque, and marshalling of this plain
structure cannot fail. -/
structure HubValue where
  apiServer : String
  kubeConfig : Config := Config.empty
deriving DecidableEq, Repr

/-- The `Klusterlet` part of the template values. -/
structure KlusterletValue where
  apiServer : String := ""
deriving DecidableEq, Repr

/-- The template `Values` built by `Options.complete`. -/
structure Values where
  clusterName : String := ""
  hub : HubValue := { apiServer := "" }
  registry : String := ""
  bundleVersion : BundleVersion := ⟨"", "", "", ""⟩
  klusterlet : KlusterletValue := {}
deriving DecidableEq, Repr

/-- The join `Options`, with the flag fields the embedded functions read
and the mutable fields they write (`HubCADate`, `hubInClusterEndpoint`,
`HubConfig`, `values`).  `HubCADate : Option` models the Go nil check
`o.HubCADate != nil`; `HubConfig` starts at the zero value and is only
read after `complete` has set it. -/
structure Options where
  token : String
  hubAPIServer : String
  clusterName : String
  registry : String
  caFile : String := ""
  bundleVersion : String := ""
  outputFile : String := ""
  HubCADate : Option (List Nat) := none
  forceHubInClusterEndpointLookup : Bool := false
  hubInClusterEndpoint : String := ""
  HubConfig : Config := Config.empty
  wait : Bool := false
  dryRun : Bool := false
  timeout : Int := 0
  values : Values := {}
deriving DecidableEq, Repr

/-- The network calls `createClientcmdapiv1Config` can make over the
insecure external client, recorded in a trace. -/
inductive HubCall where
  | getAPIServer
  | getCACert
deriving DecidableEq, Repr

/-- Results of the calls made over the insecure external client:
`helpers.GetAPIServer(externalClientUnSecure)` and
`helpers.GetCACert(externalClientUnSecure)`. -/
structure HubEnv where
  hubGetAPIServer : Except Err String
  hubGetCACert : Except Err (List Nat)
deriving Repr

/-- Embeds `Options.createExternalBootstrapConfig`: the insecure, token-only
bootstrap kubeconfig (one cluster "hub" with `InsecureSkipTLSVerify`,
one auth-info "bootstrap" carrying the token, one context). -/
def createExternalBootstrapConfig (o : Options) : Config :=
  { clusters := [
      { name := "hub",
        cluster := { server := o.hubAPIServer,
                     insecureSkipTLSVerify := true,
                     certificateAuthorityData := [] } }],
    authInfos := [
      { name := "bootstrap", authInfo := { token := o.token } }],
    contexts := [
      { name := "bootstrap",
        context := { cluster := "hub", authInfo := "bootstrap",
                     nspace := "default" } }],
    currentContext := "bootstrap" }

/-- Helper for the Go field writes `cfg.Clusters[0].Cluster.<field> = v`:
rewrite the first cluster stanza of a kubeconfig.  (On an empty cluster
list Go would panic on the index; every config flowing through the join
pipeline has exactly one cluster.) -/
def updateFirstCluster (cfg : Config) (f : Cluster → Cluster) : Config :=
  { cfg with clusters :=
      match cfg.clusters with
      | [] => []
      | nc :: rest => { nc with cluster := f nc.cluster } :: rest }

/-- The cluster stanza of `cfg.Clusters[0]`, when present. -/
def firstCluster (cfg : Config) : Option Cluster :=
  (cfg.clusters.head?).map (fun nc => nc.cluster)

/-- Embeds `Options.createClientcmdapiv1Config`: the trust-escalation step.  If
the in-cluster lookup flag is set it resolves `o.hubInClusterEndpoint`
over the insecure client, tolerating a not-found error (Go assigns the
helper's zero-value string "" alongside the error) and aborting on any
other error.  It then deep-copies the insecure bootstrap config, turns
TLS verification on, points the server at the externally supplied hub
address, and fills the CA data from `o.HubCADate` when set, otherwise
from a remote CA fetch over the insecure client (whose error aborts).
Returns the result together with the trace of hub calls made. -/
def createClientcmdapiv1Config (o : Options) (env : HubEnv)
    (bootstrapExternalConfigUnSecure : Config) :
    Except Err (Options × Config) × List HubCall :=
  let lookupStep : Except Err Options × List HubCall :=
    if o.forceHubInClusterEndpointLookup then
      match env.hubGetAPIServer with
      | Except.ok addr =>
        (Except.ok { o with hubInClusterEndpoint := addr }, [HubCall.getAPIServer])
      | Except.error e =>
        if e.isNotFound then
          (Except.ok { o with hubInClusterEndpoint := "" }, [HubCall.getAPIServer])
        else
          (Except.error e, [HubCall.getAPIServer])
    else (Except.ok o, [])
  match lookupStep with
  | (Except.error e, tr) => (Except.error e, tr)
  | (Except.ok o1, tr) =>
    let bootstrapConfig := updateFirstCluster bootstrapExternalConfigUnSecure
      (fun c => { c with insecureSkipTLSVerify := false, server := o1.hubAPIServer })
    match o1.HubCADate with
    | some cabytes =>
      (Except.ok (o1, updateFirstCluster bootstrapConfig
        (fun c => { c with certificateAuthorityData := cabytes })), tr)
    | none =>
      match env.hubGetCACert with
      | Except.error e => (Except.error e, tr ++ [HubCall.getCACert])
      | Except.ok ca =>
        (Except.ok (o1, updateFirstCluster bootstrapConfig
          (fun c => { c with certificateAuthorityData := ca })), tr ++ [HubCall.getCACert])

/-- Modelled from the spec: `preflight.ValidAPIHost` (package
pkg/cmd/join/preflight, not under src/).  The warning the caller logs —
the resolved server field "should start with http:// or https://" —
fixes its behavior: an API host is valid when it starts with one of the
two URL schemes. -/
def validAPIHost (apiHost : String) : Bool :=
  apiHost.startsWith "https://" || apiHost.startsWith "http://"

/-- Results of all effectful calls `Options.complete` makes, besides the
two hub calls in `HubEnv`: the version-bundle resolution, the CA-file
read, the construction of the insecure external client, the local
kube-client construction, and the local `helpers.GetAPIServer` lookup
for the registering klusterlet's own endpoint. -/
structure CompleteEnv where
  getVersionBundle : Except Err BundleVersion
  readCAFile : Except Err (List Nat)
  createExternalClient : Except Err Unit
  hub : HubEnv
  kubernetesClientSet : Except Err Unit
  localGetAPIServer : Except Err String
deriving Repr

/-- Embeds `Options.complete` up to and including the kube-client construction:
validate the required inputs, build the initial template values, resolve
the version bundle, read the CA file when given, build the insecure
bootstrap config and external client, run trust escalation into
`o.HubConfig`, and build the local kube client.  Factored out so that the
final, never-fatal local endpoint lookup is visibly independent of it. -/
def completePre (o : Options) (env : CompleteEnv) :
    Except Err Options × List HubCall :=
  if o.token == "" then (Except.error (Err.other "token is missing"), [])
  else if o.hubAPIServer == "" then
    (Except.error (Err.other "hub-server is missing"), [])
  else if o.clusterName == "" then (Except.error (Err.other "name is missing"), [])
  else if o.registry == "" then
    (Except.error (Err.other "the OCM image registry should not be empty, like quay.io/open-cluster-management"), [])
  else
    let o := { o with values :=
      { clusterName := o.clusterName,
        hub := { apiServer := o.hubAPIServer },
        registry := o.registry } }
    match env.getVersionBundle with
    | Except.error e => (Except.error e, [])
    | Except.ok vb =>
      let o := { o with values := { o.values with bundleVersion := vb } }
      let caStep : Except Err Options :=
        if o.caFile != "" then
          match env.readCAFile with
          | Except.error e => Except.error e
          | Except.ok cabytes => Except.ok { o with HubCADate := some cabytes }
        else Except.ok o
      match caStep with
      | Except.error e => (Except.error e, [])
      | Except.ok o =>
        let bootstrapExternalConfigUnSecure := createExternalBootstrapConfig o
        match env.createExternalClient with
        | Except.error e => (Except.error e, [])
        | Except.ok _ =>
          match createClientcmdapiv1Config o env.hub bootstrapExternalConfigUnSecure with
          | (Except.error e, tr) => (Except.error e, tr)
          | (Except.ok (o1, cfg), tr) =>
            let o2 := { o1 with HubConfig := cfg }
            match env.kubernetesClientSet with
            | Except.error e => (Except.error e, tr)
            | Except.ok _ => (Except.ok o2, tr)

/-- Embeds `Options.complete`: the pipeline above, followed by the local lookup
of the registering cluster's own API-server endpoint.  A lookup error is
logged and degraded to the empty string, as is a resolved address that
is not a valid API host; the lookup never fails `complete`. -/
def complete (o : Options) (env : CompleteEnv) :
    Except Err Options × List HubCall :=
  match completePre o env with
  | (Except.error e, tr) => (Except.error e, tr)
  | (Except.ok o2, tr) =>
    let klusterletApiserver :=
      match env.localGetAPIServer with
      | Except.error _ => ""
      | Except.ok addr => if !(validAPIHost addr) then "" else addr
    (Except.ok { o2 with values :=
      { o2.values with klusterlet := { apiServer := klusterletApiserver } } }, tr)

/-- Embeds `Options.setKubeconfig`: when the in-cluster lookup flag is set,
overwrite the hub kubeconfig's server with the previously resolved
`o.hubInClusterEndpoint`, then serialize the hub kubeconfig into the
template values (`yaml.Marshal` modelled as storing the `Config` value;
see `HubValue`). -/
def setKubeconfig (o : Options) : Options :=
  let o :=
    if o.forceHubInClusterEndpointLookup then
      { o with HubConfig := (updateFirstCluster o.HubConfig
          (fun c => { c with server := o.hubInClusterEndpoint })) }
    else o
  { o with values :=
      { o.values with hub := { o.values.hub with kubeConfig := o.HubConfig } } }

/-- A pod watch request as issued by the two wait functions: namespace,
label selector and the server-side `TimeoutSeconds` of the
`metav1.ListOptions`. -/
structure WatchRequest where
  nspace : String
  labelSelector : String
  timeoutSeconds : Int
deriving DecidableEq, Repr

/-- The watch request opened by
`waitUntilRegistrationOperatorConditionIsTrue`. -/
def registrationOperatorWatchRequest (timeout : Int) : WatchRequest :=
  { nspace := "open-cluster-management",
    labelSelector := "app=klusterlet",
    timeoutSeconds := timeout }

/-- The watch request opened by `waitUntilKlusterletConditionIsTrue`. -/
def klusterletWatchRequest (timeout : Int) : WatchRequest :=
  { nspace := "open-cluster-management-agent",
    labelSelector := "app=klusterlet-registration-agent",
    timeoutSeconds := timeout }

/-- Results of the effectful calls `Options.run` makes: the three applier
stages, the CRD readiness wait, and, inside the two wait functions, the
client constructions and the outcome of each `helpers.WatchUntil` call;
finally `apply.WriteOutput`. -/
structure RunEnv where
  applyDirectly : Except Err Unit
  applyDeployments : Except Err Unit
  waitCRDReady : Except Err Unit
  applyCustomResources : Except Err Unit
  opToRESTConfig : Except Err Unit
  opNewForConfig : Except Err Unit
  opWatchOutcome : Except Err Unit
  klClientSet : Except Err Unit
  klWatchOutcome : Except Err Unit
  writeOutput : Except Err Unit
deriving Repr

/-- Embeds `waitUntilRegistrationOperatorConditionIsTrue`: build a REST config
and client (either failure returns before any watch is opened), then
watch pods labelled app=klusterlet in open-cluster-management with the
given timeout until the Ready condition is true.  Returns the outcome
together with the watch requests opened. -/
def waitUntilRegistrationOperatorConditionIsTrue (env : RunEnv)
    (timeout : Int) : Except Err Unit × List WatchRequest :=
  match env.opToRESTConfig with
  | Except.error e => (Except.error e, [])
  | Except.ok _ =>
    match env.opNewForConfig with
    | Except.error e => (Except.error e, [])
    | Except.ok _ =>
      (env.opWatchOutcome, [registrationOperatorWatchRequest timeout])

/-- Embeds `waitUntilKlusterletConditionIsTrue`: build a clientset (failure
returns before any watch is opened), then watch pods labelled
app=klusterlet-registration-agent in open-cluster-management-agent with
the given timeout until the Ready condition is true. -/
def waitUntilKlusterletConditionIsTrue (env : RunEnv)
    (timeout : Int) : Except Err Unit × List WatchRequest :=
  match env.klClientSet with
  | Except.error e => (Except.error e, [])
  | Except.ok _ =>
    (env.klWatchOutcome, [klusterletWatchRequest timeout])

/-- Embeds `Options.run`: apply the static manifests, the operator deployment,
(outside dry-run) wait for the klusterlet CRD, apply the klusterlet
custom resource, and then — in two separate `if o.wait && !dryRun`
blocks, each passing `int64(o.ClusteradmFlags.Timeout)` — run the
registration-operator wait and the klusterlet wait in sequence, aborting
on the first error.  Returns the outcome together with the trace of
pod watch requests opened. -/
def run (o : Options) (env : RunEnv) : Except Err Unit × List WatchRequest :=
  match env.applyDirectly with
  | Except.error e => (Except.error e, [])
  | Except.ok _ =>
  match env.applyDeployments with
  | Except.error e => (Except.error e, [])
  | Except.ok _ =>
  match (if !o.dryRun then env.waitCRDReady else Except.ok ()) with
  | Except.error e => (Except.error e, [])
  | Except.ok _ =>
  match env.applyCustomResources with
  | Except.error e => (Except.error e, [])
  | Except.ok _ =>
  match (if o.wait && !o.dryRun then
           waitUntilRegistrationOperatorConditionIsTrue env o.timeout
         else (Except.ok (), [])) with
  | (Except.error e, tr) => (Except.error e, tr)
  | (Except.ok _, tr) =>
  match (if o.wait && !o.dryRun then
           waitUntilKlusterletConditionIsTrue env o.timeout
         else (Except.ok (), [])) with
  | (Except.error e, tr2) => (Except.error e, tr ++ tr2)
  | (Except.ok _, tr2) => (env.writeOutput, tr ++ tr2)

/-- Embeds `corev1.PodCondition`: the fields the predicates copy into a
`metav1.Condition`. -/
structure PodCondition where
  type : String
  status : String
  reason : String
  message : String
deriving DecidableEq, Repr

/-- Embeds `corev1.PodStatus`: the phase string (used for progress display) and
the condition list. -/
structure PodStatus where
  phase : String
  conditions : List PodCondition
deriving DecidableEq, Repr

/-- Embeds `corev1.Pod`, reduced to the status the predicates read. -/
structure Pod where
  status : PodStatus
deriving DecidableEq, Repr

/-- Embeds `metav1.Condition`, as built by the predicates from the pod
conditions. -/
structure Condition where
  type : String
  status : String
  reason : String
  message : String
deriving DecidableEq, Repr

/-- A watch event's object: either a `*corev1.Pod` (the type assertion
succeeds) or some other runtime object of the given kind (the assertion
fails). -/
inductive RuntimeObject where
  | pod (p : Pod)
  | otherObject (kind : String)
deriving DecidableEq, Repr

/-- Whether the Go type assertion `event.Object.(*corev1.Pod)` succeeds. -/
def RuntimeObject.isPod : RuntimeObject → Bool
  | RuntimeObject.pod _ => true
  | RuntimeObject.otherObject _ => false

/-- Embeds `watch.Event`, reduced to the object the predicates inspect. -/
structure WatchEvent where
  object : RuntimeObject
deriving DecidableEq, Repr

/-- Embeds `meta.FindStatusCondition` from k8s.io/apimachinery: the first
condition whose type matches. -/
def findStatusCondition (conds : List Condition) (t : String) : Option Condition :=
  conds.find? (fun c => c.type == t)

/-- Embeds `meta.IsStatusConditionTrue` from k8s.io/apimachinery: true iff a
condition of the given type exists and its status is "True". -/
def isStatusConditionTrue (conds : List Condition) (t : String) : Bool :=
  match findStatusCondition conds t with
  | some c => c.status == "True"
  | none => false

/-- Modelled from the spec: `printer.GetSpinnerPodStatus`
(pkg/helpers/printer, not under src/) produces the human-facing progress
phase text for a pod; modelled as the pod's status phase string.  The
claims depend only on whether the displayed phase is updated, never on
its contents. -/
def getSpinnerPodStatus (p : Pod) : String :=
  p.status.phase

/-- The per-pod condition conversion loop shared by both predicates:
each `corev1.PodCondition` becomes a `metav1.Condition` with the same
type, status, reason and message. -/
def podConditionsToMeta (cs : List PodCondition) : List Condition :=
  cs.map (fun c => { type := c.type, status := c.status,
                     reason := c.reason, message := c.message })

/-- The event predicate passed to `helpers.WatchUntil` by
`waitUntilRegistrationOperatorConditionIsTrue`.  The displayed phase is
threaded explicitly: a non-pod event returns false and leaves the phase
untouched; a pod event stores the pod's spinner status and reports
whether the Ready condition is true. -/
def registrationOperatorPredicate (event : WatchEvent) (phase : String) :
    Bool × String :=
  match event.object with
  | RuntimeObject.pod pod =>
    let phase1 := getSpinnerPodStatus pod
    let conds := podConditionsToMeta pod.status.conditions
    (isStatusConditionTrue conds "Ready", phase1)
  | _ => (false, phase)

/-- The event predicate passed to `helpers.WatchUntil` by
`waitUntilKlusterletConditionIsTrue`; its body is identical to the
registration-operator predicate. -/
def klusterletPredicate (event : WatchEvent) (phase : String) :
    Bool × String :=
  match event.object with
  | RuntimeObject.pod pod =>
    let phase1 := getSpinnerPodStatus pod
    let conds := podConditionsToMeta pod.status.conditions
    (isStatusConditionTrue conds "Ready", phase1)
  | _ => (false, phase)

/-- Modelled from the spec: `helpers.WatchUntil` (pkg/helpers/wait, not
under src/) consumes the stream's events in arrival order, returning
success as soon as the predicate first reports satisfaction and a
timeout failure (here `false`) when the stream closes without the
predicate ever returning true; the displayed phase threads through every
evaluated event. -/
def watchUntil (pred : WatchEvent → String → Bool × String) :
    List WatchEvent → String → Bool × String
  | [], phase => (false, phase)
  | e :: rest, phase =>
    match pred e phase with
    | (true, phase1) => (true, phase1)
    | (false, phase1) => watchUntil pred rest phase1

/-
Concrete inputs used to exercise the theorems below on closed instances.
-/

/-- A join invocation with an operator-supplied CA file. -/
def oW : Options :=
  { token := "tok-123", hubAPIServer := "https://hub.example:6443",
    clusterName := "c1", registry := "quay.io/open-cluster-management",
    caFile := "ca.crt" }

/-- An environment in which every call of `complete` succeeds and the CA
file reads as the bytes `[7, 8]`. -/
def envW : CompleteEnv :=
  { getVersionBundle := Except.ok ⟨"r", "p", "w", "o"⟩,
    readCAFile := Except.ok [7, 8],
    createExternalClient := Except.ok (),
    hub := { hubGetAPIServer := Except.ok "https://internal:6443",
             hubGetCACert := Except.ok [] },
    kubernetesClientSet := Except.ok (),
    localGetAPIServer := Except.ok "https://local:6443" }

/-- The options state produced by `complete oW envW`. -/
def oW1 : Options :=
  match (complete oW envW).1 with
  | Except.ok x => x
  | Except.error _ => { token := "", hubAPIServer := "", clusterName := "", registry := "" }

/-- A join invocation with the in-cluster endpoint lookup forced. -/
def joinLookupOptions : Options :=
  { token := "tok-123", hubAPIServer := "https://hub.example:6443",
    clusterName := "c1", registry := "quay.io/open-cluster-management",
    forceHubInClusterEndpointLookup := true }

/-- An environment in which the forced in-cluster endpoint lookup fails
with a not-found error and the remote CA fetch returns `[1, 2]`. -/
def joinLookupNotFoundEnv : CompleteEnv :=
  { getVersionBundle := Except.ok ⟨"r", "p", "w", "o"⟩,
    readCAFile := Except.error (Err.other "unused"),
    createExternalClient := Except.ok (),
    hub := { hubGetAPIServer := Except.error Err.notFound,
             hubGetCACert := Except.ok [1, 2] },
    kubernetesClientSet := Except.ok (),
    localGetAPIServer := Except.ok "https://local:6443" }

/-- The options state produced by
`complete joinLookupOptions joinLookupNotFoundEnv`. -/
def joinLookupResult : Options :=
  match (complete joinLookupOptions joinLookupNotFoundEnv).1 with
  | Except.ok x => x
  | Except.error _ => { token := "", hubAPIServer := "", clusterName := "", registry := "" }

/-- A hub environment whose endpoint lookup fails with an error that is
not a not-found error. -/
def otherErrHubEnv : HubEnv :=
  { hubGetAPIServer := Except.error (Err.other "connection refused"),
    hubGetCACert := Except.ok [] }

/-- A join invocation with no CA file and no forced lookup. -/
def plainOptions : Options :=
  { token := "tok-123", hubAPIServer := "https://hub.example:6443",
    clusterName := "c1", registry := "quay.io/open-cluster-management" }

/-- A hub environment whose remote CA fetch returns empty bytes. -/
def emptyCAHubEnv : HubEnv :=
  { hubGetAPIServer := Except.ok "https://internal:6443",
    hubGetCACert := Except.ok [] }

/-- A join invocation with synchronous waiting requested, dry-run off and
a 30 second timeout. -/
def runWaitOptions : Options :=
  { token := "t", hubAPIServer := "h", clusterName := "c", registry := "r",
    wait := true, dryRun := false, timeout := 30 }

/-- A run environment in which every call succeeds. -/
def okRunEnv : RunEnv :=
  { applyDirectly := Except.ok (), applyDeployments := Except.ok (),
    waitCRDReady := Except.ok (), applyCustomResources := Except.ok (),
    opToRESTConfig := Except.ok (), opNewForConfig := Except.ok (),
    opWatchOutcome := Except.ok (), klClientSet := Except.ok (),
    klWatchOutcome := Except.ok (), writeOutput := Except.ok () }

/-- A watch event whose object is not a pod. -/
def malformedEvent : WatchEvent :=
  { object := RuntimeObject.otherObject "ConfigMap" }

/-
Helper lemmas shared by the claim theorems: structural characterizations
of successful runs of the trust-escalation step and of `complete`.
-/

theorem createConfig_ok_shape (o : Options) (env : HubEnv) (bs : Config)
    (o1 : Options) (cfg : Config) (tr : List HubCall)
    (h : createClientcmdapiv1Config o env bs = (Except.ok (o1, cfg), tr)) :
    ∃ ca, cfg = updateFirstCluster (updateFirstCluster bs
        (fun c => { c with insecureSkipTLSVerify := false, server := o.hubAPIServer }))
        (fun c => { c with certificateAuthorityData := ca }) ∧
      (∀ b, o.HubCADate = some b → ca = b) ∧
      o1.hubAPIServer = o.hubAPIServer ∧ o1.HubCADate = o.HubCADate ∧
      o1.token = o.token ∧
      o1.forceHubInClusterEndpointLookup = o.forceHubInClusterEndpointLookup := by
  unfold createClientcmdapiv1Config at h
  cases hf : o.forceHubInClusterEndpointLookup <;> rw [hf] at h <;> simp at h
  · cases hca : o.HubCADate <;> rw [hca] at h <;> simp at h
    · cases hge : env.hubGetCACert <;> rw [hge] at h <;> simp at h
      · refine ⟨_, h.1.2.symm, ?_, ?_⟩ <;> simp [← h.1.1, hca, hf]
    · refine ⟨_, h.1.2.symm, ?_, ?_⟩ <;> simp [← h.1.1, hca, hf]
  · cases hga : env.hubGetAPIServer <;> rw [hga] at h <;> simp at h
    · rename_i e
      cases hnf : e.isNotFound <;> rw [hnf] at h <;> simp at h
      cases hca : o.HubCADate <;> simp [hca] at h
      · cases hge : env.hubGetCACert <;> rw [hge] at h <;> simp at h
        · refine ⟨_, h.1.2.symm, ?_, ?_⟩ <;> simp [← h.1.1, hca, hf]
      · refine ⟨_, h.1.2.symm, ?_, ?_⟩ <;> simp [← h.1.1, hca, hf]
    · cases hca : o.HubCADate <;> simp [hca] at h
      · cases hge : env.hubGetCACert <;> rw [hge] at h <;> simp at h
        · refine ⟨_, h.1.2.symm, ?_, ?_⟩ <;> simp [← h.1.1, hca, hf]
      · refine ⟨_, h.1.2.symm, ?_, ?_⟩ <;> simp [← h.1.1, hca, hf]

theorem completePre_ok_shape (o : Options) (env : CompleteEnv) (o2 : Options)
    (tr : List HubCall) (h : completePre o env = (Except.ok o2, tr)) :
    ∃ ob o1, createClientcmdapiv1Config ob env.hub (createExternalBootstrapConfig ob)
        = (Except.ok (o1, o2.HubConfig), tr) ∧
      ob.hubAPIServer = o.hubAPIServer ∧
      ob.token = o.token ∧
      ob.forceHubInClusterEndpointLookup = o.forceHubInClusterEndpointLookup ∧
      (o.caFile = "" → ob.HubCADate = o.HubCADate) ∧
      (∀ b, env.readCAFile = Except.ok b → o.caFile ≠ "" → ob.HubCADate = some b) ∧
      o2 = { o1 with HubConfig := o2.HubConfig } := by
  simp only [completePre] at h
  repeat' split at h
  all_goals try (apply absurd h; simp; done)
  rename_i ht hh hc hr xvb vb hvb caStep ob hcaeq xext uext hext xcc o1 cfg tr' hcreate xk uk hkub
  rw [Prod.mk.injEq] at h
  obtain ⟨h1, h2⟩ := h
  injection h1 with h1
  subst h1
  subst h2
  split at hcaeq
  · rename_i hcafile
    split at hcaeq
    · exact absurd hcaeq (by simp)
    · rename_i cabytes hread
      injection hcaeq with hob
      subst hob
      refine ⟨_, o1, by simpa using hcreate, by simp, by simp, by simp, ?_, ?_, by simp⟩
      · intro hempty
        exact absurd hempty (by simpa using hcafile)
      · intro b hr2 _
        rw [hread] at hr2
        injection hr2 with hb
        simp [hb]
  · rename_i hcafile
    injection hcaeq with hob
    subst hob
    refine ⟨_, o1, by simpa using hcreate, by simp, by simp, by simp, by intro _; simp, ?_, by simp⟩
    intro b _ hne
    exact absurd (by simpa using hcafile) hne

theorem complete_ok_shape (o : Options) (env : CompleteEnv) (o1 : Options)
    (tr : List HubCall) (h : complete o env = (Except.ok o1, tr)) :
    ∃ o2, completePre o env = (Except.ok o2, tr) ∧
      o1 = { o2 with values := { o2.values with klusterlet :=
        { apiServer :=
            match env.localGetAPIServer with
            | Except.error _ => ""
            | Except.ok addr => if !(validAPIHost addr) then "" else addr } } } := by
  unfold complete at h
  split at h
  · exact absurd h (by simp)
  · rename_i o2 tr' hpre
    rw [Prod.mk.injEq] at h
    obtain ⟨h1, h2⟩ := h
    injection h1 with h1
    subst h2
    exact ⟨o2, hpre, h1.symm⟩

theorem createConfig_explicitCA_no_fetch (o : Options) (env : HubEnv) (bs : Config)
    (b : List Nat) (hca : o.HubCADate = some b) :
    HubCall.getCACert ∉ (createClientcmdapiv1Config o env bs).2 := by
  unfold createClientcmdapiv1Config
  cases hf : o.forceHubInClusterEndpointLookup <;> simp [hf, hca]
  cases hga : env.hubGetAPIServer <;> simp [hca]
  rename_i e
  cases hnf : e.isNotFound <;> simp [hca]

theorem createConfig_lookup_endpoint (o : Options) (env : HubEnv) (bs : Config)
    (o1 : Options) (cfg : Config) (tr : List HubCall)
    (hf : o.forceHubInClusterEndpointLookup = true)
    (h : createClientcmdapiv1Config o env bs = (Except.ok (o1, cfg), tr)) :
    (∀ addr, env.hubGetAPIServer = Except.ok addr → o1.hubInClusterEndpoint = addr) ∧
    (∀ e, env.hubGetAPIServer = Except.error e → o1.hubInClusterEndpoint = "") := by
  unfold createClientcmdapiv1Config at h
  rw [hf] at h
  cases hga : env.hubGetAPIServer <;> rw [hga] at h <;> simp at h
  · rename_i e
    cases hnf : e.isNotFound <;> rw [hnf] at h <;> simp at h
    cases hca : o.HubCADate <;> simp [hca] at h
    · cases hge : env.hubGetCACert <;> rw [hge] at h <;> simp at h
      · constructor
        · intro addr haddr
          exact absurd haddr (by simp)
        · intro e' _
          simp [← h.1.1]
    · constructor
      · intro addr haddr
        exact absurd haddr (by simp)
      · intro e' _
        simp [← h.1.1]
  · rename_i addr0
    cases hca : o.HubCADate <;> simp [hca] at h
    · cases hge : env.hubGetCACert <;> rw [hge] at h <;> simp at h
      · constructor
        · intro addr haddr
          injection haddr with haddr
          simp [← h.1.1, haddr]
        · intro e' he'
          exact absurd he' (by simp)
    · constructor
      · intro addr haddr
        injection haddr with haddr
        simp [← h.1.1, haddr]
      · intro e' he'
        exact absurd he' (by simp)

theorem complete_of_completePre (o : Options) (env : CompleteEnv) (o2 : Options)
    (tr : List HubCall) (hp : completePre o env = (Except.ok o2, tr)) :
    complete o env = (Except.ok { o2 with values := { o2.values with klusterlet :=
      { apiServer := match env.localGetAPIServer with
        | Except.error _ => ""
        | Except.ok addr => if !(validAPIHost addr) then "" else addr } } }, tr) := by
  unfold complete
  rw [hp]

/-- C1: For every join invocation that completes trust escalation
successfully, the credential produced (`o.HubConfig`) has TLS
verification enabled (`InsecureSkipTLSVerify = false`) and its server
address set to the externally supplied hub address, on the cluster
stanza it contains; no insecure stanza (the insecure intermediate
credential) is part of the escalation output. -/
theorem escalation_output_always_secure (o : Options) (env : CompleteEnv)
    (o1 : Options) (tr : List HubCall)
    (h : complete o env = (Except.ok o1, tr)) :
    o1.HubConfig.clusters ≠ [] ∧
    ∀ nc ∈ o1.HubConfig.clusters,
      nc.cluster.insecureSkipTLSVerify = false ∧
      nc.cluster.server = o.hubAPIServer := by
  obtain ⟨o2, hpre, ho1⟩ := complete_ok_shape o env o1 tr h
  obtain ⟨ob, o1', hcreate, hob1, hob2, hob3, hob4, hob5, ho2⟩ :=
    completePre_ok_shape o env o2 tr hpre
  obtain ⟨ca, hcfg, hcab, hs, hd, htk, hfl⟩ := createConfig_ok_shape _ _ _ _ _ _ hcreate
  have hcl : o1.HubConfig = o2.HubConfig := by rw [ho1]
  rw [hcl, hcfg]
  constructor <;> simp [createExternalBootstrapConfig, updateFirstCluster, hob1]

theorem escalation_output_always_secure_witness : oW1.HubConfig.clusters ≠ [] :=
  (escalation_output_always_secure oW envW oW1 (complete oW envW).2 rfl).1

/-- C2: For every join invocation where an explicit CA was supplied (the
CA file read into a non-nil `HubCADate`), the final credential's
`CertificateAuthorityData` equals those supplied bytes exactly, and the
remote CA fetch over the insecure channel is not attempted (no
`getCACert` call appears in the trace). -/
theorem explicit_ca_used_verbatim_no_fetch (o : Options) (env : CompleteEnv)
    (b : List Nat) (o1 : Options) (tr : List HubCall)
    (hcafile : o.caFile ≠ "") (hread : env.readCAFile = Except.ok b)
    (h : complete o env = (Except.ok o1, tr)) :
    HubCall.getCACert ∉ tr ∧
    o1.HubConfig.clusters ≠ [] ∧
    ∀ nc ∈ o1.HubConfig.clusters, nc.cluster.certificateAuthorityData = b := by
  obtain ⟨o2, hpre, ho1⟩ := complete_ok_shape o env o1 tr h
  obtain ⟨ob, o1', hcreate, hob1, hob2, hob3, hob4, hob5, ho2⟩ :=
    completePre_ok_shape o env o2 tr hpre
  obtain ⟨ca, hcfg, hcab, hs, hd, htk, hfl⟩ := createConfig_ok_shape _ _ _ _ _ _ hcreate
  have hobca : ob.HubCADate = some b := hob5 b hread hcafile
  have hca : ca = b := hcab b hobca
  have htr : tr = (createClientcmdapiv1Config ob env.hub (createExternalBootstrapConfig ob)).2 := by
    rw [hcreate]
  have hcl : o1.HubConfig = o2.HubConfig := by rw [ho1]
  refine ⟨?_, ?_, ?_⟩
  · rw [htr]
    exact createConfig_explicitCA_no_fetch ob env.hub _ b hobca
  · rw [hcl, hcfg]
    simp [createExternalBootstrapConfig, updateFirstCluster]
  · rw [hcl, hcfg]
    simp [createExternalBootstrapConfig, updateFirstCluster, hca]

theorem explicit_ca_used_verbatim_no_fetch_witness :
    HubCall.getCACert ∉ (complete oW envW).2 :=
  (explicit_ca_used_verbatim_no_fetch oW envW [7, 8] oW1 (complete oW envW).2
    (by decide) rfl rfl).1

/-- C3 (counterexample): with the forced in-cluster lookup set and the
lookup failing not-found, the final persisted server address is the
empty string, not the externally supplied hub address
"https://hub.example:6443" as the claim states. -/
theorem internal_override_notFound_counterexample :
    ((complete joinLookupOptions joinLookupNotFoundEnv).1.map
      (fun o1 => (setKubeconfig o1).values.hub.kubeConfig.clusters.map
        (fun nc => nc.cluster.server))) = Except.ok [""] ∧
    joinLookupOptions.hubAPIServer = "https://hub.example:6443" ∧
    ("" : String) ≠ "https://hub.example:6443" := by
  refine ⟨by rfl, by rfl, by decide⟩

set_option maxRecDepth 4000 in
/-- C3 (amended): with `forceInternalLookup` set, the secure credential
is derived against the externally supplied hub address, and only
afterwards does `setKubeconfig` overwrite the persisted server address
with the resolved `hubInClusterEndpoint`; if the lookup succeeded the
final persisted address is the resolved internal address, and if the
lookup failed not-found the overwrite still happens with the empty
lookup result, so the final persisted address is the empty string (not
the externally supplied hub address). -/
theorem internal_override_applied_after_escalation (o : Options) (env : CompleteEnv)
    (o1 : Options) (tr : List HubCall)
    (hf : o.forceHubInClusterEndpointLookup = true)
    (h : complete o env = (Except.ok o1, tr)) :
    (o1.HubConfig.clusters ≠ [] ∧ ∀ nc ∈ o1.HubConfig.clusters,
        nc.cluster.insecureSkipTLSVerify = false ∧ nc.cluster.server = o.hubAPIServer) ∧
    (∀ addr, env.hub.hubGetAPIServer = Except.ok addr →
      ∀ nc ∈ (setKubeconfig o1).values.hub.kubeConfig.clusters,
        nc.cluster.server = addr) ∧
    (∀ e, env.hub.hubGetAPIServer = Except.error e → e.isNotFound = true →
      ∀ nc ∈ (setKubeconfig o1).values.hub.kubeConfig.clusters,
        nc.cluster.server = "") := by
  obtain ⟨o2, hpre, ho1⟩ := complete_ok_shape o env o1 tr h
  obtain ⟨ob, o1', hcreate, hob1, hob2, hob3, hob4, hob5, ho2⟩ :=
    completePre_ok_shape o env o2 tr hpre
  obtain ⟨ca, hcfg, hcab, hs, hd, htk, hfl⟩ := createConfig_ok_shape _ _ _ _ _ _ hcreate
  have hobf : ob.forceHubInClusterEndpointLookup = true := by rw [hob3, hf]
  obtain ⟨hepok, heperr⟩ :=
    createConfig_lookup_endpoint ob env.hub _ o1' o2.HubConfig tr hobf hcreate
  have hcl : o1.HubConfig = o2.HubConfig := by rw [ho1]
  have e1 : o1.forceHubInClusterEndpointLookup = o2.forceHubInClusterEndpointLookup := by
    rw [ho1]
  have e2 : o2.forceHubInClusterEndpointLookup = o1'.forceHubInClusterEndpointLookup := by
    rw [ho2]
  have ho1f : o1.forceHubInClusterEndpointLookup = true :=
    (e1.trans e2).trans (hfl.trans hobf)
  have e3 : o1.hubInClusterEndpoint = o2.hubInClusterEndpoint := by rw [ho1]
  have e4 : o2.hubInClusterEndpoint = o1'.hubInClusterEndpoint := by rw [ho2]
  have ho1e : o1.hubInClusterEndpoint = o1'.hubInClusterEndpoint := e3.trans e4
  have hsk : (setKubeconfig o1).values.hub.kubeConfig =
      updateFirstCluster o1.HubConfig
        (fun c => { c with server := o1.hubInClusterEndpoint }) := by
    simp [setKubeconfig, ho1f]
  refine ⟨?_, ?_, ?_⟩
  · rw [hcl, hcfg]
    constructor <;> simp [createExternalBootstrapConfig, updateFirstCluster, hob1]
  · intro addr haddr nc hnc
    rw [hsk, hcl, hcfg] at hnc
    simp [createExternalBootstrapConfig, updateFirstCluster] at hnc
    rw [hnc]
    simp [ho1e, hepok addr haddr]
  · intro e he _ nc hnc
    rw [hsk, hcl, hcfg] at hnc
    simp [createExternalBootstrapConfig, updateFirstCluster] at hnc
    rw [hnc]
    simp [ho1e, heperr e he]

theorem internal_override_applied_after_escalation_witness :
    joinLookupResult.HubConfig.clusters ≠ [] :=
  (internal_override_applied_after_escalation joinLookupOptions joinLookupNotFoundEnv
    joinLookupResult (complete joinLookupOptions joinLookupNotFoundEnv).2 rfl rfl).1.1

/-- C4: with `forceInternalLookup` set, a not-found error from the
internal-endpoint lookup over the insecure credential does not abort
escalation (provided the CA step succeeds, escalation returns a
credential), while any other error from that lookup aborts the whole
operation with that error and no credential is produced. -/
theorem lookup_notFound_tolerated_other_error_fatal (o : Options) (env : HubEnv)
    (bs : Config) (e : Err)
    (hf : o.forceHubInClusterEndpointLookup = true)
    (hga : env.hubGetAPIServer = Except.error e) :
    (e.isNotFound = true →
      ∀ ca, o.HubCADate = some ca ∨
          (o.HubCADate = none ∧ env.hubGetCACert = Except.ok ca) →
        ∃ o1 cfg, (createClientcmdapiv1Config o env bs).1 = Except.ok (o1, cfg)) ∧
    (e.isNotFound = false →
      (createClientcmdapiv1Config o env bs).1 = Except.error e) := by
  constructor
  · intro hnf ca hca
    rcases hca with hca | ⟨hca, hge⟩
    · exact ⟨{ o with hubInClusterEndpoint := "" },
        updateFirstCluster (updateFirstCluster bs
          (fun c => { c with insecureSkipTLSVerify := false, server := o.hubAPIServer }))
          (fun c => { c with certificateAuthorityData := ca }),
        by simp [createClientcmdapiv1Config, hf, hga, hnf, hca]⟩
    · exact ⟨{ o with hubInClusterEndpoint := "" },
        updateFirstCluster (updateFirstCluster bs
          (fun c => { c with insecureSkipTLSVerify := false, server := o.hubAPIServer }))
          (fun c => { c with certificateAuthorityData := ca }),
        by simp [createClientcmdapiv1Config, hf, hga, hnf, hca, hge]⟩
  · intro hnf
    simp [createClientcmdapiv1Config, hf, hga, hnf]

theorem lookup_notFound_tolerated_other_error_fatal_witness :
    (createClientcmdapiv1Config joinLookupOptions otherErrHubEnv
      (createExternalBootstrapConfig joinLookupOptions)).1
      = Except.error (Err.other "connection refused") :=
  (lookup_notFound_tolerated_other_error_fatal joinLookupOptions otherErrHubEnv
    (createExternalBootstrapConfig joinLookupOptions)
    (Err.other "connection refused") rfl rfl).2 rfl

/-- C5: when no explicit CA is supplied and the remote CA fetched over
the insecure channel is empty, escalation succeeds and the final
credential carries the empty CA bytes (an empty fetched CA is not an
error); any error returned by the CA fetch itself aborts escalation. -/
theorem empty_remote_ca_accepted_fetch_error_fatal (o : Options) (env : HubEnv)
    (hca : o.HubCADate = none) (hf : o.forceHubInClusterEndpointLookup = false) :
    (env.hubGetCACert = Except.ok [] →
      (createClientcmdapiv1Config o env (createExternalBootstrapConfig o)).1
        = Except.ok (o,
          ⟨[⟨"hub", ⟨o.hubAPIServer, false, []⟩⟩],
           [⟨"bootstrap", ⟨o.token⟩⟩],
           [⟨"bootstrap", ⟨"hub", "bootstrap", "default"⟩⟩],
           "bootstrap"⟩)) ∧
    (∀ e, env.hubGetCACert = Except.error e →
      (createClientcmdapiv1Config o env (createExternalBootstrapConfig o)).1
        = Except.error e) := by
  constructor
  · intro hge
    simp [createClientcmdapiv1Config, hf, hca, hge, createExternalBootstrapConfig,
      updateFirstCluster]
  · intro e hge
    simp [createClientcmdapiv1Config, hf, hca, hge]

theorem empty_remote_ca_accepted_fetch_error_fatal_witness :
    (createClientcmdapiv1Config plainOptions emptyCAHubEnv
      (createExternalBootstrapConfig plainOptions)).1
      = Except.ok (plainOptions,
        ⟨[⟨"hub", ⟨plainOptions.hubAPIServer, false, []⟩⟩],
         [⟨"bootstrap", ⟨plainOptions.token⟩⟩],
         [⟨"bootstrap", ⟨"hub", "bootstrap", "default"⟩⟩],
         "bootstrap"⟩) :=
  (empty_remote_ca_accepted_fetch_error_fatal plainOptions emptyCAHubEnv rfl rfl).1 rfl

/-- C6: each of the two sequential readiness waits is issued with the
full configured timeout value independently (the same `TimeoutSeconds`
is passed to both watch requests, with no deduction of time already
spent), so the worst-case total wait is 2 × timeout. -/
theorem both_waits_full_independent_timeout (o : Options) (env : RunEnv)
    (hw : o.wait = true) (hd : o.dryRun = false)
    (h1 : env.applyDirectly = Except.ok ()) (h2 : env.applyDeployments = Except.ok ())
    (h3 : env.waitCRDReady = Except.ok ()) (h4 : env.applyCustomResources = Except.ok ())
    (h5 : env.opToRESTConfig = Except.ok ()) (h6 : env.opNewForConfig = Except.ok ())
    (h7 : env.opWatchOutcome = Except.ok ()) (h8 : env.klClientSet = Except.ok ()) :
    (run o env).2 = [registrationOperatorWatchRequest o.timeout,
                     klusterletWatchRequest o.timeout] ∧
    (registrationOperatorWatchRequest o.timeout).timeoutSeconds = o.timeout ∧
    (klusterletWatchRequest o.timeout).timeoutSeconds = o.timeout ∧
    ((run o env).2.map WatchRequest.timeoutSeconds).sum = 2 * o.timeout := by
  have htrace : (run o env).2 = [registrationOperatorWatchRequest o.timeout,
      klusterletWatchRequest o.timeout] := by
    cases hkl : env.klWatchOutcome <;>
      simp [run, waitUntilRegistrationOperatorConditionIsTrue,
        waitUntilKlusterletConditionIsTrue, hw, hd, h1, h2, h3, h4, h5, h6, h7, h8, hkl]
  refine ⟨htrace, rfl, rfl, ?_⟩
  rw [htrace]
  simp [registrationOperatorWatchRequest, klusterletWatchRequest]
  ring

theorem both_waits_full_independent_timeout_witness :
    ((run runWaitOptions okRunEnv).2.map WatchRequest.timeoutSeconds).sum
      = 2 * runWaitOptions.timeout :=
  (both_waits_full_independent_timeout runWaitOptions okRunEnv
    rfl rfl rfl rfl rfl rfl rfl rfl rfl rfl).2.2.2

/-- C7: if `wait` is false or dry-run mode is on, `run` opens no pod
watch at all; when `wait` is true and dry-run is off (and the preceding
stages succeed), it opens exactly two, in strict sequence: the
registration-operator watch first, the klusterlet-agent watch second. -/
theorem wait_and_dryrun_gate_condition_pollers (o : Options) (env : RunEnv) :
    ((o.wait = false ∨ o.dryRun = true) → (run o env).2 = []) ∧
    (o.wait = true → o.dryRun = false →
      env.applyDirectly = Except.ok () → env.applyDeployments = Except.ok () →
      env.waitCRDReady = Except.ok () → env.applyCustomResources = Except.ok () →
      env.opToRESTConfig = Except.ok () → env.opNewForConfig = Except.ok () →
      env.opWatchOutcome = Except.ok () → env.klClientSet = Except.ok () →
      (run o env).2 = [registrationOperatorWatchRequest o.timeout,
                       klusterletWatchRequest o.timeout]) := by
  constructor
  · intro hcond
    have hgate : (o.wait && !o.dryRun) = false := by
      rcases hcond with hw | hd
      · simp [hw]
      · simp [hd]
    unfold run
    simp [hgate]
    repeat' split
    all_goals rfl
  · intro hw hd h1 h2 h3 h4 h5 h6 h7 h8
    cases hkl : env.klWatchOutcome <;>
      simp [run, waitUntilRegistrationOperatorConditionIsTrue,
        waitUntilKlusterletConditionIsTrue, hw, hd, h1, h2, h3, h4, h5, h6, h7, h8, hkl]

theorem wait_and_dryrun_gate_condition_pollers_witness :
    (run plainOptions okRunEnv).2 = [] :=
  (wait_and_dryrun_gate_condition_pollers plainOptions okRunEnv).1 (Or.inl rfl)

/-- C8: for every watch event whose object is not a pod, both readiness
predicates return false without updating the displayed progress phase
(and without crashing: they are total), and the poller skips the
malformed event and continues on later events. -/
theorem malformed_event_skipped (e : WatchEvent) (phase : String)
    (hnp : e.object.isPod = false) :
    registrationOperatorPredicate e phase = (false, phase) ∧
    klusterletPredicate e phase = (false, phase) ∧
    (∀ rest, watchUntil registrationOperatorPredicate (e :: rest) phase =
      watchUntil registrationOperatorPredicate rest phase) ∧
    (∀ rest, watchUntil klusterletPredicate (e :: rest) phase =
      watchUntil klusterletPredicate rest phase) := by
  obtain ⟨obj⟩ := e
  cases obj with
  | pod p => simp [RuntimeObject.isPod] at hnp
  | otherObject k =>
    refine ⟨rfl, rfl, ?_, ?_⟩ <;> intro rest <;>
      simp [watchUntil, registrationOperatorPredicate, klusterletPredicate]

theorem malformed_event_skipped_witness :
    registrationOperatorPredicate malformedEvent "Pending" = (false, "Pending") :=
  (malformed_event_skipped malformedEvent "Pending" rfl).1

/-- C9: the trust-escalation step never mutates the insecure bootstrap
config passed to it (it operates on a deep copy — modelled here by the
function being pure), and the secure config it returns differs from the
insecure one only in the first cluster's `InsecureSkipTLSVerify`,
`Server` and `CertificateAuthorityData` fields: the auth-infos (bearer
token and auth-info name), contexts, current context, cluster name and
the remaining cluster stanzas are preserved verbatim. -/
theorem escalation_frame_preserves_rest (o : Options) (env : HubEnv)
    (nc : NamedCluster) (rest : List NamedCluster) (ais : List NamedAuthInfo)
    (ctxs : List NamedContext) (cur : String)
    (o1 : Options) (cfg : Config) (tr : List HubCall)
    (h : createClientcmdapiv1Config o env
        { clusters := nc :: rest, authInfos := ais, contexts := ctxs,
          currentContext := cur }
        = (Except.ok (o1, cfg), tr)) :
    cfg.authInfos = ais ∧ cfg.contexts = ctxs ∧ cfg.currentContext = cur ∧
    ∃ ca, cfg.clusters = { nc with cluster := ({ nc.cluster with
      insecureSkipTLSVerify := false, server := o.hubAPIServer,
      certificateAuthorityData := ca }) } :: rest := by
  obtain ⟨ca, hcfg, _, _, _, _, _⟩ := createConfig_ok_shape _ _ _ _ _ _ h
  subst hcfg
  refine ⟨rfl, rfl, rfl, ca, ?_⟩
  simp [updateFirstCluster]

theorem escalation_frame_preserves_rest_witness :
    ((⟨[⟨"hub", ⟨"https://hub.example:6443", false, []⟩⟩],
       [⟨"bootstrap", ⟨"tok-123"⟩⟩],
       [⟨"bootstrap", ⟨"hub", "bootstrap", "default"⟩⟩],
       "bootstrap"⟩ : Config)).authInfos = [⟨"bootstrap", ⟨"tok-123"⟩⟩] :=
  (escalation_frame_preserves_rest plainOptions emptyCAHubEnv
    ⟨"hub", ⟨"https://hub.example:6443", true, []⟩⟩ []
    [⟨"bootstrap", ⟨"tok-123"⟩⟩]
    [⟨"bootstrap", ⟨"hub", "bootstrap", "default"⟩⟩] "bootstrap"
    plainOptions
    ⟨[⟨"hub", ⟨"https://hub.example:6443", false, []⟩⟩],
     [⟨"bootstrap", ⟨"tok-123"⟩⟩],
     [⟨"bootstrap", ⟨"hub", "bootstrap", "default"⟩⟩],
     "bootstrap"⟩
    [HubCall.getCACert] rfl).1

/-- C10: in `complete`, failure of the local lookup of the registering
cluster's own API-server endpoint is never fatal: whatever that lookup
returns, `complete` still succeeds, and `Klusterlet.APIServer` is the
empty string on a lookup error or on a resolved address that does not
start with http:// or https://, and the resolved address otherwise. -/
theorem local_endpoint_lookup_never_fatal (o : Options) (env : CompleteEnv)
    (o0 : Options) (tr : List HubCall) (l : Except Err String)
    (h : complete o env = (Except.ok o0, tr)) :
    ∃ o1, (complete o { env with localGetAPIServer := l }).1 = Except.ok o1 ∧
      o1.values.klusterlet.apiServer =
        (match l with
         | Except.error _ => ""
         | Except.ok addr => if !(validAPIHost addr) then "" else addr) := by
  obtain ⟨o2, hpre, _⟩ := complete_ok_shape o env o0 tr h
  have hpre2 : completePre o { env with localGetAPIServer := l }
      = (Except.ok o2, tr) := hpre
  have hc := complete_of_completePre o { env with localGetAPIServer := l } o2 tr hpre2
  exact ⟨_, by rw [hc], rfl⟩

theorem local_endpoint_lookup_never_fatal_witness :
    (complete oW { envW with localGetAPIServer := Except.error (Err.other "cluster-info gone") }).1.map
      (fun o1 => o1.values.klusterlet.apiServer) = Except.ok "" := by
  obtain ⟨o1, hok, hval⟩ := local_endpoint_lookup_never_fatal oW envW oW1
    (complete oW envW).2 (Except.error (Err.other "cluster-info gone")) rfl
  rw [hok]
  show Except.ok (o1.values.klusterlet.apiServer) = Except.ok ""
  rw [hval]

end Clusteradm
